import Mathlib

/-!
Verification of the realestateapp data pipeline (src/app.py).

The program loads two wide region-by-date Excel sheets per metric pair
(sale index / rent index, and optionally sale change / rent change),
normalizes each to a long table, inner-joins the two long tables on
(date, region), filters by a date window and a region selection, sorts,
and renders one polyline per region with START / recent landmarks.

Shallow embedding conventions:
  - a date (the '구분' column, renamed '날짜') is a `Nat` serial; `fillna(0)`
    on an absent date cell yields the serial `0`;
  - a metric value is a `Rat` (the program does no arithmetic on values,
    it only fills missing cells with `0`);
  - a missing cell (pandas NaN) is `Option.none`;
  - `pd.merge(a, b, on=['날짜','지역'])` (default inner join) is `merge`,
    producing, in left order, one output row per matching left/right pair;
  - `sort_values` on two columns: pandas sorts multi-column keys with a
    stable lexsort, which as a function on lists coincides with insertion
    sort by the lexicographic key, so it is embedded as
    `List.insertionSort` with that key;
  - `load_change_data`'s `try/except ... return None` is an `Option`
    argument/result; the `TypeError` raised by subscripting `None`
    (line 167 of app.py runs `df_chg["날짜"]` without a presence check)
    is an explicit outcome constructor.
-/

namespace RealEstateApp

/-- Region column name (a `지역` value). -/
abbrev Region := String

/-- Date serial for the `구분`/`날짜` column. -/
abbrev Date := Nat

/-- Metric value (index level or percentage change). -/
abbrev Value := Rat

/-- One row of a raw wide sheet as read by `pd.read_excel`: the identifying
`구분` cell (possibly NaN) and one metric cell per region column (possibly
NaN). -/
structure RawRow where
  gubun : Option Date
  cells : List (Option Value)
deriving Repr, DecidableEq

/-- A raw wide sheet: the region column names and the data rows. -/
structure RawSheet where
  regions : List Region
  rows : List RawRow
deriving Repr, DecidableEq

/-- One row of a wide sheet after every NaN has been filled. -/
structure FilledRow where
  date : Date
  cells : List Value
deriving Repr, DecidableEq

/-- A wide sheet after `fillna(0)`. -/
structure FilledSheet where
  regions : List Region
  rows : List FilledRow
deriving Repr, DecidableEq

/-- One long-format record produced by `melt`: `(날짜, 지역, value)`. -/
structure MetricRecord where
  date : Date
  region : Region
  value : Value
deriving Repr, DecidableEq

/-- One row of a joined table: `(날짜, 지역, sale-side value, rent-side
value)`; used both for the index table (매매지수/전세지수) and the change
table (매매증감/전세증감). -/
structure JointRecord where
  date : Date
  region : Region
  sale : Value
  rent : Value
deriving Repr, DecidableEq

/-- Embeds `df.dropna(subset=['구분'])`: drop every row whose identifying
cell is NaN. -/
def dropnaGubun (s : RawSheet) : RawSheet :=
  { s with rows := s.rows.filter (fun r => r.gubun.isSome) }

/-- Embeds `df.fillna(0)` on one row: NaN in the `구분` cell becomes the
serial `0`, NaN in a metric cell becomes the value `0`. -/
def fillnaRow (r : RawRow) : FilledRow :=
  { date := r.gubun.getD 0, cells := r.cells.map (fun c => c.getD 0) }

/-- Embeds `df.fillna(0)` on a whole sheet. -/
def fillna (s : RawSheet) : FilledSheet :=
  { regions := s.regions, rows := s.rows.map fillnaRow }

/-- Embeds `df.melt(id_vars=['날짜'], var_name='지역', value_name=...)`:
one record per (value column, row) pair, column-major as pandas produces
it. -/
def melt (s : FilledSheet) : List MetricRecord :=
  s.regions.enum.flatMap (fun ji =>
    s.rows.map (fun r => { date := r.date, region := ji.2, value := r.cells.getD ji.1 0 }))

/-- Normalization of the sale sheet in `load_data` (app.py lines 22-29):
`dropna(subset=['구분'])`, then `fillna(0)`, then melt. -/
def sale_normalize (s : RawSheet) : List MetricRecord :=
  melt (fillna (dropnaGubun s))

/-- Normalization of the rent sheet in `load_data` (app.py lines 24-30):
`fillna(0)` then melt. Note line 22 applies `dropna(subset=['구분'])` to
`sale` only; the rent sheet is not dropna'd in `load_data`. -/
def rent_normalize (s : RawSheet) : List MetricRecord :=
  melt (fillna s)

/-- Normalization of either change sheet in `load_change_data` (app.py
lines 46-53): `dropna(subset=['구분'])` then `fillna(0)` then melt — here
both sheets are dropna'd. -/
def change_normalize (s : RawSheet) : List MetricRecord :=
  melt (fillna (dropnaGubun s))

/-- Embeds `pd.merge(sale_melt, rent_melt, on=['날짜', '지역'])`: the
default inner equi-join, in left-frame order, pairing each left row with
every right row that matches its (date, region) key. -/
def merge (left right : List MetricRecord) : List JointRecord :=
  left.flatMap (fun l =>
    (right.filter (fun r => r.date == l.date && r.region == l.region)).map
      (fun r => { date := l.date, region := l.region, sale := l.value, rent := r.value }))

/-- Embeds `load_data` after a successful read (app.py lines 22-34): the
joined index table. -/
def load_data (saleRaw rentRaw : RawSheet) : List JointRecord :=
  merge (sale_normalize saleRaw) (rent_normalize rentRaw)

/-- Embeds the body of `load_change_data` after a successful read (app.py
lines 46-57). -/
def load_change_body (saleRaw rentRaw : RawSheet) : List JointRecord :=
  merge (change_normalize saleRaw) (change_normalize rentRaw)

/-- Embeds `load_change_data` (app.py lines 37-57): `none` input stands
for the `try/except` catching a read failure, in which case the function
shows an error message and returns `None` instead of stopping the app. -/
def load_change_data (readResult : Option (RawSheet × RawSheet)) :
    Option (List JointRecord) :=
  readResult.map (fun p => load_change_body p.1 p.2)

/-- Keys (date, region) of a list of long records. -/
def keysOfMetric (l : List MetricRecord) : List (Date × Region) :=
  l.map (fun r => (r.date, r.region))

/-- Keys (date, region) of a joined table. -/
def keysOfJoint (l : List JointRecord) : List (Date × Region) :=
  l.map (fun r => (r.date, r.region))

/-- Embeds the filter mask of app.py lines 100-102 (and, with the change
table, lines 167-169): date within the selected window, both ends
inclusive, and region among the selected regions. -/
def mask (start_date end_date : Date) (selected : List Region) (r : JointRecord) : Bool :=
  decide (start_date ≤ r.date) && decide (r.date ≤ end_date) && selected.contains r.region

/-- Sort key order of `sort_values(['지역', '날짜'])` (app.py line 103):
lexicographic on (region, date). -/
def rowLe (a b : JointRecord) : Prop :=
  a.region < b.region ∨ (a.region = b.region ∧ a.date ≤ b.date)

instance : DecidableRel rowLe := fun a b =>
  inferInstanceAs (Decidable (a.region < b.region ∨ (a.region = b.region ∧ a.date ≤ b.date)))

instance : IsTotal JointRecord rowLe where
  total a b := by
    rcases lt_trichotomy a.region b.region with h | h | h
    · exact Or.inl (Or.inl h)
    · rcases Nat.le_total a.date b.date with hd | hd
      · exact Or.inl (Or.inr ⟨h, hd⟩)
      · exact Or.inr (Or.inr ⟨h.symm, hd⟩)
    · exact Or.inr (Or.inl h)

instance : IsTrans JointRecord rowLe where
  trans a b c hab hbc := by
    rcases hab with h₁ | ⟨h₁, d₁⟩
    · rcases hbc with h₂ | ⟨h₂, _⟩
      · exact Or.inl (h₁.trans h₂)
      · exact Or.inl (h₂ ▸ h₁)
    · rcases hbc with h₂ | ⟨h₂, d₂⟩
      · exact Or.inl (h₁ ▸ h₂)
      · exact Or.inr ⟨h₁.trans h₂, d₁.trans d₂⟩

/-- Sort key order of `sort_values(['날짜', '지역'])` (app.py line 170):
lexicographic on (date, region). -/
def chgRowLe (a b : JointRecord) : Prop :=
  a.date < b.date ∨ (a.date = b.date ∧ a.region ≤ b.region)

instance : DecidableRel chgRowLe := fun a b =>
  inferInstanceAs (Decidable (a.date < b.date ∨ (a.date = b.date ∧ a.region ≤ b.region)))

/-- Embeds `df[mask].sort_values(['지역', '날짜'])` (app.py lines 100-103).
pandas sorts a multi-column key with a stable lexsort; a stable sort is,
as a list function, exactly insertion sort by the same key. -/
def df_sel (df : List JointRecord) (s e : Date) (sel : List Region) : List JointRecord :=
  (df.filter (mask s e sel)).insertionSort rowLe

/-- Embeds `df_chg[mask_chg].sort_values(['날짜', '지역'])` (app.py lines
167-170). -/
def df_chg_sel (t : List JointRecord) (s e : Date) (sel : List Region) : List JointRecord :=
  (t.filter (mask s e sel)).insertionSort chgRowLe

/-- Embeds `rdf = df_sel[df_sel['지역'] == region]` (app.py line 111): the
ordered point sequence of one region, feeding that region's polyline trace,
hover labels and landmarks. -/
def rdfOf (dfSel : List JointRecord) (region : Region) : List JointRecord :=
  dfSel.filter (fun r => r.region == region)

/-- Embeds `color_map.get(region, "black")` (app.py line 114), with the
color map as an association list. -/
def lookupColor (cm : List (Region × String)) (region : Region) : String :=
  (cm.lookup region).getD "black"

/-- A plotly marker as far as the claims are concerned: position, color,
size. -/
structure Marker where
  x : Value
  y : Value
  color : String
  size : Nat
deriving Repr, DecidableEq

/-- The recency label box of app.py lines 128-134: its anchor, its text
region, and its background color. -/
structure RecentLabel where
  x : Value
  y : Value
  text : Region
  bgcolor : String
deriving Repr, DecidableEq

/-- Everything app.py lines 114-153 add to the figure for one region: the
polyline trace through the region's rows (x = 매매지수, y = 전세지수, hover
shows region/date/values), the recency label, the `recent` marker at the
last row and the `START` marker at the first row. -/
structure RegionTraces where
  region : Region
  lineColor : String
  lineWidth : Nat
  points : List JointRecord
  recentLabel : RecentLabel
  recentMarker : Marker
  startMarker : Marker
deriving Repr, DecidableEq

/-- Embeds one pass of the per-region loop (app.py lines 110-153):
`if rdf.empty: continue` yields no traces for the region; otherwise the
polyline, the recency label at `rdf.iloc[-1]`, the `recent` marker at
`rdf.iloc[-1]` in the region's color (size 10) and the `START` marker at
`rdf.iloc[0]` in fixed grey (size 8) are added. -/
def renderRegion (cm : List (Region × String)) (dfSel : List JointRecord)
    (region : Region) : Option RegionTraces :=
  match rdfOf dfSel region with
  | [] => none
  | r :: rs =>
    let reg_color := lookupColor cm region
    let last := (r :: rs).getLast (List.cons_ne_nil r rs)
    some
      { region := region
        lineColor := reg_color
        lineWidth := 2
        points := r :: rs
        recentLabel := { x := last.sale, y := last.rent, text := region, bgcolor := reg_color }
        recentMarker := { x := last.sale, y := last.rent, color := reg_color, size := 10 }
        startMarker := { x := r.sale, y := r.rent, color := "grey", size := 8 } }

/-- Embeds the whole per-region loop: one `RegionTraces` for each selected
region that has rows after filtering, in selection order. -/
def renderFigure (cm : List (Region × String)) (selected : List Region)
    (dfSel : List JointRecord) : List RegionTraces :=
  selected.filterMap (renderRegion cm dfSel)

/-- Outcome of the index-chart section (app.py lines 105-163): either the
empty-state warning `데이터가 없습니다` or a figure. -/
inductive ChartOutcome where
  | emptyState
  | chart (traces : List RegionTraces)
deriving Repr, DecidableEq

/-- Embeds app.py lines 100-163: filter and sort, then branch on emptiness
between the warning and the figure. Every path is a value; no exception
escapes this section. -/
def indexChart (df : List JointRecord) (s e : Date) (sel : List Region)
    (cm : List (Region × String)) : ChartOutcome :=
  let d := df_sel df s e sel
  if d.isEmpty then .emptyState else .chart (renderFigure cm sel d)

/-- Outcome of the change-chart section (app.py lines 166-223):
`typeError` is the `TypeError` Python raises at line 167 when `df_chg` is
`None` and the script subscripts it; `emptyState` is the warning of line
174; `chart` carries the filtered, sorted rows the bar chart is built
from. -/
inductive ChangeOutcome where
  | typeError
  | emptyState
  | chart (rows : List JointRecord)
deriving Repr, DecidableEq

/-- Embeds app.py lines 166-223. The script applies `df_chg["날짜"] >= ...`
with no presence check, so a `None` result from `load_change_data` raises
before any branch is reached. -/
def changeSection (dfChg : Option (List JointRecord)) (s e : Date)
    (sel : List Region) : ChangeOutcome :=
  match dfChg with
  | none => .typeError
  | some t =>
    let d := df_chg_sel t s e sel
    if d.isEmpty then .emptyState else .chart d

/-- Segments of the polyline a `mode='lines+markers'` trace draws through
its vertex list: the consecutive pairs. -/
def segmentsOf {α : Type} (l : List α) : List (α × α) := l.zip l.tail

/-- Follows the words of the spec (§4.3 landmark derivation), for
comparison with the rendered polyline: the point immediately preceding the
last one in sorted order, absent when there are fewer than 2 points. -/
def spec_second_to_last {α : Type} (l : List α) : Option α := l.dropLast.getLast?

/-- A sale-side long table covering dates 1, 8 and 15 for one region, as
in the join scenario of spec §8. -/
def saleScenario : List MetricRecord :=
  [{ date := 1, region := "R", value := 100 },
   { date := 8, region := "R", value := 101 },
   { date := 15, region := "R", value := 102 }]

/-- A rent-side long table covering only dates 1 and 15 for the same
region. -/
def rentScenario : List MetricRecord :=
  [{ date := 1, region := "R", value := 100 },
   { date := 15, region := "R", value := 101 }]

/-- A sheet carrying one header-remnant row: its `구분` cell is NaN and
its single region column (named A) holds the value 5. -/
def headerRemnantSheet : RawSheet :=
  { regions := ["A"], rows := [{ gubun := none, cells := [some 5] }] }

theorem mem_keysOfJoint_merge {A B : List MetricRecord} {k : Date × Region} :
    k ∈ keysOfJoint (merge A B) ↔ (k ∈ keysOfMetric A ∧ k ∈ keysOfMetric B) := by
  simp only [keysOfJoint, keysOfMetric, merge, List.mem_map, List.mem_flatMap,
    List.mem_filter, Bool.and_eq_true, beq_iff_eq]
  constructor
  · rintro ⟨j, ⟨l, hl, r, ⟨hr, hd, hreg⟩, rfl⟩, rfl⟩
    exact ⟨⟨l, hl, rfl⟩, ⟨r, hr, by rw [hd, hreg]⟩⟩
  · rintro ⟨⟨l, hl, rfl⟩, ⟨r, hr, hk⟩⟩
    obtain ⟨hd, hreg⟩ := Prod.mk.injEq .. ▸ hk
    exact ⟨{ date := l.date, region := l.region, sale := l.value, rent := r.value },
      ⟨l, hl, r, ⟨hr, hd, hreg⟩, rfl⟩, rfl⟩

/-- C1 (code_bug evidence): a row whose `구분` cell is absent is dropped
by the sale-sheet and change-sheet normalizations, but the rent-sheet
normalization inside `load_data` never drops it — `fillna(0)` turns its
`구분` cell into the serial 0 and the row is melted into a record, contrary
to the claim that both sheets alike drop such rows. -/
theorem rent_normalize_keeps_blank_gubun_row :
    rent_normalize headerRemnantSheet = [{ date := 0, region := "A", value := 5 }]
  ∧ sale_normalize headerRemnantSheet = []
  ∧ change_normalize headerRemnantSheet = [] := by
  refine ⟨?_, ?_, ?_⟩ <;> rfl

/-- C2: the join has inner-join semantics — a (date, region) key appears
among the output keys exactly when it appears among the keys of both
inputs, so a key present on one side only yields no row (and, the embedding
being a total function, no error); in the §8 scenario, joining a sale
table over dates 1, 8, 15 with a rent table over dates 1, 15 yields
exactly 2 rows with keys (1, R) and (15, R) — date 8 is dropped, not
null-filled. -/
theorem merge_inner_join_semantics :
    (∀ (A B : List MetricRecord) (k : Date × Region),
      k ∈ keysOfJoint (merge A B) ↔ (k ∈ keysOfMetric A ∧ k ∈ keysOfMetric B))
  ∧ (merge saleScenario rentScenario).length = 2
  ∧ keysOfJoint (merge saleScenario rentScenario) = [(1, "R"), (15, "R")] :=
  ⟨fun _ _ _ => mem_keysOfJoint_merge, by rfl, by rfl⟩

/-- C7: the join is commutative up to field order — `merge A B` and
`merge B A` contain the same set of (date, region) keys. -/
theorem merge_keys_commutative :
    ∀ (A B : List MetricRecord) (k : Date × Region),
      k ∈ keysOfJoint (merge A B) ↔ k ∈ keysOfJoint (merge B A) := by
  intro A B k
  rw [mem_keysOfJoint_merge, mem_keysOfJoint_merge, and_comm]

/-- C9 (code_bug evidence): on a read failure `load_change_data` does
return an absent value instead of aborting, but the downstream change
section does not branch on presence — it subscripts the absent value at
app.py line 167, which raises a `TypeError`, so a run without change
sheets does not complete the change chart without raising. -/
theorem change_section_raises_on_absent_data :
    ∀ (s e : Date) (sel : List Region),
      load_change_data none = none
    ∧ changeSection (load_change_data none) s e sel = ChangeOutcome.typeError :=
  fun _ _ _ => ⟨rfl, rfl⟩

/-- C3: a record reaches the trajectory-building selection exactly when it
is a record of the joined table whose region is selected and whose date
lies in the window, both ends inclusive; restricting further to one
region's point sequence additionally pins the record's region to that
region. -/
theorem df_sel_membership :
    ∀ (df : List JointRecord) (s e : Date) (sel : List Region) (r : JointRecord),
      (r ∈ df_sel df s e sel ↔ (r ∈ df ∧ s ≤ r.date ∧ r.date ≤ e ∧ r.region ∈ sel))
    ∧ ∀ (R : Region), r ∈ rdfOf (df_sel df s e sel) R ↔
        (r ∈ df ∧ s ≤ r.date ∧ r.date ≤ e ∧ r.region ∈ sel ∧ r.region = R) := by
  intro df s e sel r
  have hmem : r ∈ df_sel df s e sel ↔ (r ∈ df ∧ s ≤ r.date ∧ r.date ≤ e ∧ r.region ∈ sel) := by
    simp only [df_sel, List.mem_insertionSort, List.mem_filter, mask, Bool.and_eq_true,
      decide_eq_true_eq, List.elem_eq_mem]
    tauto
  refine ⟨hmem, fun R => ?_⟩
  simp only [rdfOf, List.mem_filter, beq_iff_eq, hmem]
  tauto

/-- C4: for every region, the point sequence feeding that region's trace
is sorted non-decreasing by date (for a region absent from the output the
sequence is empty and the statement is vacuous). -/
theorem rdf_dates_sorted :
    ∀ (df : List JointRecord) (s e : Date) (sel : List Region) (R : Region),
      List.Sorted (· ≤ ·) ((rdfOf (df_sel df s e sel) R).map (fun r => r.date)) := by
  intro df s e sel R
  have hs : List.Sorted rowLe (df_sel df s e sel) :=
    List.sorted_insertionSort rowLe _
  have hsorted : List.Sorted rowLe (rdfOf (df_sel df s e sel) R) :=
    hs.sublist (List.filter_sublist _)
  have hreg : ∀ x ∈ rdfOf (df_sel df s e sel) R, x.region = R := by
    intro x hx
    simp only [rdfOf, List.mem_filter, beq_iff_eq] at hx
    exact hx.2
  refine List.pairwise_map.mpr (hsorted.imp_of_mem ?_)
  intro a b ha hb hab
  rcases hab with h | ⟨_, hd⟩
  · rw [hreg a ha, hreg b hb] at h
    exact absurd h (lt_irrefl _)
  · exact hd

theorem filter_orderedInsert_of_neg {α : Type} (le : α → α → Prop) [DecidableRel le]
    (p : α → Bool) (a : α) (l : List α) (ha : p a = false) :
    (l.orderedInsert le a).filter p = l.filter p := by
  induction l with
  | nil => simp [List.orderedInsert, ha]
  | cons b t ih =>
    by_cases h : le a b
    · simp [List.orderedInsert, if_pos h, List.filter_cons, ha]
    · simp only [List.orderedInsert, if_neg h, List.filter_cons]
      cases hb : p b <;> simp [hb, ih]

theorem filter_orderedInsert_of_pos {α : Type} (le : α → α → Prop) [DecidableRel le]
    (p : α → Bool) (a : α) (l : List α) (ha : p a = true)
    (h : ∀ b ∈ l, p b = true → le a b) :
    (l.orderedInsert le a).filter p = a :: l.filter p := by
  induction l with
  | nil => simp [List.orderedInsert, ha]
  | cons b t ih =>
    by_cases hb : le a b
    · simp [List.orderedInsert, if_pos hb, List.filter_cons, ha]
    · have hpb : p b = false := by
        cases hpb : p b
        · rfl
        · exact absurd (h b (List.mem_cons_self b t) hpb) hb
      simp only [List.orderedInsert, if_neg hb, List.filter_cons, hpb, Bool.false_eq_true,
        if_false]
      exact ih (fun c hc hpc => h c (List.mem_cons_of_mem b hc) hpc)

/-- Stability of insertion sort, phrased through filtering: if the elements
a predicate selects are mutually related by the sort order (as rows sharing
one (region, date) key are), sorting commutes with that filter, i.e. those
elements keep their relative input order. -/
theorem filter_insertionSort {α : Type} (le : α → α → Prop) [DecidableRel le]
    (p : α → Bool) (hp : ∀ a b, p a = true → p b = true → le a b) (l : List α) :
    (l.insertionSort le).filter p = l.filter p := by
  induction l with
  | nil => rfl
  | cons a t ih =>
    by_cases ha : p a = true
    · rw [List.insertionSort,
        filter_orderedInsert_of_pos le p a _ ha (fun b _ hb => hp a b ha hb),
        ih, List.filter_cons_of_pos ha]
    · have ha' : p a = false := Bool.eq_false_iff.mpr ha
      rw [List.insertionSort, filter_orderedInsert_of_neg le p a _ ha', ih,
        List.filter_cons_of_neg (by simp [ha'])]

/-- C5: duplicate (region, date) keys in the filtered input keep their
relative input order through the sort (stability), and the sort collapses
nothing — every row keeps its multiplicity. -/
theorem sort_stable_and_keeps_duplicates :
    ∀ (df : List JointRecord) (s e : Date) (sel : List Region) (R : Region) (d : Date),
      ((df_sel df s e sel).filter (fun r => r.region == R && r.date == d)
        = (df.filter (mask s e sel)).filter (fun r => r.region == R && r.date == d))
    ∧ ∀ (x : JointRecord),
        (df_sel df s e sel).count x = (df.filter (mask s e sel)).count x := by
  intro df s e sel R d
  constructor
  · simp only [df_sel]
    apply filter_insertionSort
    intro a b hpa hpb
    simp only [Bool.and_eq_true, beq_iff_eq] at hpa hpb
    exact Or.inr ⟨hpa.1.trans hpb.1.symm, le_of_eq (hpa.2.trans hpb.2.symm)⟩
  · intro x
    exact (List.perm_insertionSort rowLe _).count_eq x

/-- The final segment of the polyline through a vertex list exists exactly
when the second-to-last vertex does, and then runs from it to the last
vertex. -/
theorem segmentsOf_getLast? {α : Type} :
    ∀ (l : List α),
      (segmentsOf l).getLast? =
        (spec_second_to_last l).bind (fun p => l.getLast?.map (fun q => (p, q)))
  | [] => rfl
  | [_] => rfl
  | [_, _] => rfl
  | a :: b :: c :: t => by
    have ih := segmentsOf_getLast? (b :: c :: t)
    have h1 : spec_second_to_last (a :: b :: c :: t) = spec_second_to_last (b :: c :: t) :=
      List.getLast?_cons_cons
    have h2 : (a :: b :: c :: t).getLast? = (b :: c :: t).getLast? :=
      List.getLast?_cons_cons
    have h3 : (segmentsOf (a :: b :: c :: t)).getLast? = (segmentsOf (b :: c :: t)).getLast? := by
      show ((a, b) :: (b, c) :: (c :: t).zip t).getLast? = ((b, c) :: (c :: t).zip t).getLast?
      exact List.getLast?_cons_cons
    rw [h3, ih, h1, h2]

/-- Example filtered rows for one region, used to witness the rendering
claims. -/
def exampleRows : List JointRecord :=
  [{ date := 1, region := "A", sale := 1, rent := 1 },
   { date := 2, region := "A", sale := 2, rent := 2 }]

/-- The traces `renderRegion` produces for region A over `exampleRows`
with an empty color map. -/
def exampleTraces : RegionTraces :=
  { region := "A", lineColor := "black", lineWidth := 2, points := exampleRows,
    recentLabel := { x := 2, y := 2, text := "A", bgcolor := "black" },
    recentMarker := { x := 2, y := 2, color := "black", size := 10 },
    startMarker := { x := 1, y := 1, color := "grey", size := 8 } }

/-- C6: a region with no rows after filtering contributes no entry to the
figure (no trace, no landmarks); a region with exactly one row has an
absent second-to-last point; and for every rendered region the polyline's
directional final segment into the last vertex exists exactly when the
second-to-last point does, running from it to the last point — the
rendered vertices being exactly the region's filtered rows. -/
theorem region_entry_and_direction :
    ∀ (cm : List (Region × String)) (dfSel : List JointRecord) (R : Region),
      (rdfOf dfSel R = [] → renderRegion cm dfSel R = none)
    ∧ ((rdfOf dfSel R).length = 1 → spec_second_to_last (rdfOf dfSel R) = none)
    ∧ ∀ (tr : RegionTraces), renderRegion cm dfSel R = some tr →
        tr.points = rdfOf dfSel R
      ∧ (segmentsOf tr.points).getLast? =
          (spec_second_to_last tr.points).bind
            (fun p => tr.points.getLast?.map (fun q => (p, q))) := by
  intro cm dfSel R
  refine ⟨?_, ?_, ?_⟩
  · intro h
    simp [renderRegion, h]
  · intro h
    obtain ⟨x, hx⟩ := List.length_eq_one.mp h
    rw [hx]
    rfl
  · intro tr htr
    refine ⟨?_, segmentsOf_getLast? tr.points⟩
    rw [renderRegion] at htr
    rcases hl : rdfOf dfSel R with _ | ⟨r, rs⟩ <;> rw [hl] at htr
    · exact absurd htr (by simp)
    · cases htr
      rfl

/-- Witness for C6 at concrete inputs: an empty region list renders
nothing, a one-row region has no second-to-last point, and the two-row
example region satisfies the directional-segment equation. -/
theorem region_entry_and_direction_witness :
    (renderRegion [] [] "A" = none)
  ∧ (spec_second_to_last (rdfOf [{ date := 1, region := "A", sale := 1, rent := 1 }] "A") = none)
  ∧ (exampleTraces.points = rdfOf exampleRows "A"
    ∧ (segmentsOf exampleTraces.points).getLast? =
        (spec_second_to_last exampleTraces.points).bind
          (fun p => exampleTraces.points.getLast?.map (fun q => (p, q)))) :=
  ⟨(region_entry_and_direction [] [] "A").1 rfl,
   (region_entry_and_direction [] [{ date := 1, region := "A", sale := 1, rent := 1 }] "A").2.1
     (by decide),
   (region_entry_and_direction [] exampleRows "A").2.2 exampleTraces (by decide)⟩

/-- C8: filtering to an empty selection is a normal terminal state for
both charts — the index section renders its empty-state warning, and the
change section, when its table is present, renders its own; both sections
are total functions in the embedding, with no raising path reachable from
an empty selection. -/
theorem empty_selection_renders_empty_state :
    ∀ (df t : List JointRecord) (s e : Date) (sel : List Region)
      (cm : List (Region × String)),
      (df_sel df s e sel = [] → indexChart df s e sel cm = ChartOutcome.emptyState)
    ∧ (df_chg_sel t s e sel = [] → changeSection (some t) s e sel = ChangeOutcome.emptyState) := by
  intro df t s e sel cm
  constructor
  · intro h
    simp [indexChart, h]
  · intro h
    simp [changeSection, h]

/-- Witness for C8: both sections on empty tables render the empty
state. -/
theorem empty_selection_renders_empty_state_witness :
    indexChart [] 0 0 [] [] = ChartOutcome.emptyState
  ∧ changeSection (some []) 0 0 [] = ChangeOutcome.emptyState :=
  ⟨(empty_selection_renders_empty_state [] [] 0 0 [] []).1 rfl,
   (empty_selection_renders_empty_state [] [] 0 0 [] []).2 rfl⟩

/-- C10: for every rendered region, the START marker at the first point
has the fixed grey color and fixed size 8 — unchanged under any change of
the color assignment — while the recency marker, the recency label
background and the polyline all use the region's assigned color (black
when the region has no assignment). -/
theorem start_marker_fixed_grey :
    ∀ (cm cm' : List (Region × String)) (dfSel : List JointRecord) (R : Region)
      (tr : RegionTraces), renderRegion cm dfSel R = some tr →
        tr.startMarker.color = "grey"
      ∧ tr.startMarker.size = 8
      ∧ tr.lineColor = lookupColor cm R
      ∧ tr.recentMarker.color = lookupColor cm R
      ∧ tr.recentLabel.bgcolor = lookupColor cm R
      ∧ tr.recentMarker.size = 10
      ∧ (renderRegion cm' dfSel R).map (fun u => u.startMarker)
          = (renderRegion cm dfSel R).map (fun u => u.startMarker) := by
  intro cm cm' dfSel R tr htr
  rw [renderRegion] at htr
  rcases hl : rdfOf dfSel R with _ | ⟨r, rs⟩ <;> rw [hl] at htr
  · exact absurd htr (by simp)
  · cases htr
    refine ⟨rfl, rfl, rfl, rfl, rfl, rfl, ?_⟩
    rw [renderRegion, renderRegion, hl]
    rfl

/-- Witness for C10 at the two-row example region: grey fixed-size START
marker, region color on the line, the recency marker and the label, and a
start marker unchanged when the color map changes. -/
theorem start_marker_fixed_grey_witness :
    exampleTraces.startMarker.color = "grey"
  ∧ exampleTraces.startMarker.size = 8
  ∧ exampleTraces.lineColor = lookupColor [] "A"
  ∧ exampleTraces.recentMarker.color = lookupColor [] "A"
  ∧ exampleTraces.recentLabel.bgcolor = lookupColor [] "A"
  ∧ exampleTraces.recentMarker.size = 10
  ∧ (renderRegion [("A", "red")] exampleRows "A").map (fun u => u.startMarker)
      = (renderRegion [] exampleRows "A").map (fun u => u.startMarker) :=
  start_marker_fixed_grey [] [("A", "red")] exampleRows "A" exampleTraces (by decide)

end RealEstateApp
